import Mathlib

/-!
Shallow embedding of the DIMO trips web app core:
the challenge-response login backend (HandleSubmitChallenge and the
session cache from the app-login service) and the trip aggregator
(queryTripsAPI, queryDeviceDataHistory, handleMapDataForTrip,
extractLocationData, convertToGeoJSON and the identity resolver
queryIdentityAPIForVehicles from get_trips.go).

Modelling conventions:
* Go JSON values decoded into an interface are modelled by the inductive
  type JsonValue; JSON numbers are rationals (no arithmetic is ever
  performed on them, they are only copied through).
* Failed Go type assertions (x.(T) without the comma-ok form) are runtime
  panics; they are modelled by a distinct panicked outcome, separate from
  errors the code returns to its caller.
* Outbound HTTP calls are made explicit: each core function returns the
  list of requests it issued, and the response of the external service is
  an input parameter (the upstream oracle).
* Time is in seconds since an arbitrary origin; the fresh UUID produced
  by uuid.New().String() is an input parameter sessionID.
-/

namespace TripsWeb

/-- Dynamic JSON value, the model of a Go interface value produced by
json.Unmarshal. -/
inductive JsonValue where
  | null
  | bool (b : Bool)
  | num (q : ℚ)
  | str (s : String)
  | arr (elems : List JsonValue)
  | obj (fields : List (String × JsonValue))
deriving Repr

/-- Lookup of a key in a decoded JSON object (Go map indexing; a missing
key yields the nil interface, modelled as none). -/
def jsonLookup : List (String × JsonValue) → String → Option JsonValue
  | [], _ => none
  | (k2, v) :: rest, k => if k2 == k then some v else jsonLookup rest k

/-- Go type assertion x.(map[string]interface\x7b\x7d): succeeds only on an
object. -/
def JsonValue.asObj : JsonValue → Option (List (String × JsonValue))
  | .obj fields => some fields
  | _ => none

/-- Go type assertion x.([]interface\x7b\x7d): succeeds only on an array. -/
def JsonValue.asArr : JsonValue → Option (List JsonValue)
  | .arr elems => some elems
  | _ => none

/-- Go type assertion x.(float64): succeeds only on a number. -/
def JsonValue.asNum : JsonValue → Option ℚ
  | .num q => some q
  | _ => none

/-- Go type assertion x.(string): succeeds only on a string. -/
def JsonValue.asStr : JsonValue → Option String
  | .str s => some s
  | _ => none

/-- Entry of the expiring key-value cache (patrickmn/go-cache): a value
together with its absolute expiration instant. -/
structure CacheEntry where
  value : JsonValue
  expiresAt : ℕ
deriving Repr

/-- The in-memory cache, keyed by string.  Setting a key prepends; lookup
takes the first (most recent) binding, which realises overwrite
semantics. -/
abbrev Cache := List (String × CacheEntry)

/-- Cache.Get: the value is returned only when the key is present and the
entry has not expired (go-cache treats an item as expired when the current
time is strictly past its expiration). -/
def cacheGet : Cache → String → ℕ → Option JsonValue
  | [], _, _ => none
  | (k2, e) :: rest, k, now =>
    if k2 == k then (if e.expiresAt < now then none else some e.value)
    else cacheGet rest k now

/-- Cache.Set with an explicit TTL: stores the value with expiration
now + ttl. -/
def cacheSet (c : Cache) (k : String) (v : JsonValue) (ttl : ℕ) (now : ℕ) : Cache :=
  (k, ⟨v, now + ttl⟩) :: c

/-- Seconds in 2*time.Hour, the TTL used for sessions. -/
def twoHours : ℕ := 7200

/-- HTTP cookie as set through fiber.Cookie. -/
structure Cookie where
  name : String
  value : String
  expires : ℕ
  httpOnly : Bool
  domain : String
deriving Repr, DecidableEq

/-- Body of the upstream response to the submit-challenge POST, as seen by
the handler: reading the body can fail, decoding it as JSON can fail, or it
decodes to a JSON value. -/
inductive SubmitBody where
  | unreadable
  | undecodable
  | json (v : JsonValue)
deriving Repr

/-- Outcome of the outbound http.Post to the identity provider submit
endpoint. -/
inductive SubmitUpstream where
  | transportError
  | response (status : ℕ) (body : SubmitBody)
deriving Repr

/-- Result HandleSubmitChallenge sends back to the browser: either an
error status with a plain message (no cookie is set on this path), or the
JSON success body together with the session cookie. -/
inductive SubmitResult where
  | failure (status : ℕ) (message : String)
  | success (body : List (String × JsonValue)) (cookie : Cookie)
deriving Repr

/-- Embedding of HandleSubmitChallenge (app-login backend).  The outbound
form POST itself is unconditional and its response is the parameter
upstream; sessionID models the fresh uuid.New().String().  Returns the
handler result together with the cache as left after the call. -/
def HandleSubmitChallenge (cache : Cache) (now : ℕ) (sessionID : String)
    (upstream : SubmitUpstream) : SubmitResult × Cache :=
  match upstream with
  | .transportError => (.failure 500 "Failed to make request to external service", cache)
  | .response status body =>
    if 300 ≤ status then
      (.failure 500 ("Received non-success status code: " ++ toString status), cache)
    else
      match body with
      | .unreadable => (.failure 500 "Failed to read response from external service", cache)
      | .undecodable => (.failure 500 "Error processing response", cache)
      | .json v =>
        match v with
        | .obj responseMap =>
          match jsonLookup responseMap "access_token" with
          | none => (.failure 500 "Token not found in response", cache)
          | some token =>
            (.success
              [("message", .str "Challenge accepted and session started!"),
               ("access_token", token)]
              ⟨"session_id", sessionID, now + twoHours, true, "localhost"⟩,
             cacheSet cache sessionID token twoHours now)
        | _ => (.failure 500 "Error processing response", cache)

/-- Decision of whether HandleSubmitChallenge rejects a provider response:
non-success status, unreadable or undecodable body, body not a JSON
object, or no access_token field. -/
def submitRejected (status : ℕ) (body : SubmitBody) : Bool :=
  decide (300 ≤ status) ||
    match body with
    | .json (.obj fields) => (jsonLookup fields "access_token").isNone
    | _ => true

/-- TimeEntry of a trip summary. -/
structure TimeEntry where
  time : String
deriving Repr, DecidableEq

/-- Trip summary returned by the trips listing service. -/
structure Trip where
  id : String
  start : TimeEntry
  «end» : TimeEntry
deriving Repr, DecidableEq

/-- The process-wide tripIDToTokenIDMap.  An upsert prepends; lookup takes
the first (most recent) binding, so a recurring trip id resolves to its
last written token. -/
abbrev TripIndex := List (String × ℤ)

/-- Map lookup in the trip index. -/
def tripIndexLookup : TripIndex → String → Option ℤ
  | [], _ => none
  | (i, tok) :: rest, k => if i == k then some tok else tripIndexLookup rest k

/-- The loop in queryTripsAPI that records tripIDToTokenIDMap entries, one
upsert per returned trip, in order. -/
def updateTripIndex (idx : TripIndex) (trips : List Trip) (tokenID : ℤ) : TripIndex :=
  trips.foldl (fun m t => (t.id, tokenID) :: m) idx

/-- Key under which the trip aggregator looks up the privilege token for a
session cookie. -/
def privilegeTokenKey (sessionCookie : String) : String :=
  "privilegeToken_" ++ sessionCookie

/-- An outbound HTTP request issued by the trip aggregator: target URL and
the bearer token placed in the Authorization header. -/
structure OutboundRequest where
  url : String
  bearerToken : String
deriving Repr, DecidableEq

/-- Outcome of the outbound GET to the trips listing service, as seen
after json.Decode into TripsResponse. -/
inductive TripsUpstream where
  | transportError
  | decodeError
  | decoded (trips : List Trip)
deriving Repr, DecidableEq

/-- Result of queryTripsAPI: a returned error, a runtime panic (failed
type assertion on the cached token), or the decoded trips. -/
inductive TripsResult where
  | err (msg : String)
  | panicked
  | ok (trips : List Trip)
deriving Repr, DecidableEq

/-- Embedding of queryTripsAPI (get_trips.go).  Returns the result, the
trip index after the call, and the list of outbound requests issued. -/
def queryTripsAPI (cache : Cache) (now : ℕ) (sessionCookie : String) (tokenID : ℤ)
    (tripsAPIBaseURL : String) (index : TripIndex) (upstream : TripsUpstream) :
    TripsResult × TripIndex × List OutboundRequest :=
  match cacheGet cache (privilegeTokenKey sessionCookie) now with
  | none => (.err "privilege token not found in cache", index, [])
  | some tokenVal =>
    match tokenVal.asStr with
    | none => (.panicked, index, [])
    | some token =>
      let url := tripsAPIBaseURL ++ "/vehicle/" ++ toString tokenID ++ "/trips"
      let call : OutboundRequest := ⟨url, token⟩
      match upstream with
      | .transportError => (.err "request failed", index, [call])
      | .decodeError => (.err "response decode failed", index, [call])
      | .decoded trips => (.ok trips, updateTripIndex index trips tokenID, [call])

/-- Go-style lexicographic byte comparison of strings, on the character
lists (UTF-8 byte order and code-point order coincide). -/
def charListLt : List Char → List Char → Bool
  | [], [] => false
  | [], _ :: _ => true
  | _ :: _, [] => false
  | a :: as, b :: bs => if a < b then true else if b < a then false else charListLt as bs

/-- UTF-8 bytes of a code point, as natural numbers. -/
def utf8BytesOfCode (n : ℕ) : List ℕ :=
  if n < 0x80 then [n]
  else if n < 0x800 then [0xC0 + n / 0x40, 0x80 + n % 0x40]
  else if n < 0x10000 then [0xE0 + n / 0x1000, 0x80 + (n / 0x40) % 0x40, 0x80 + n % 0x40]
  else [0xF0 + n / 0x40000, 0x80 + (n / 0x1000) % 0x40, 0x80 + (n / 0x40) % 0x40, 0x80 + n % 0x40]

/-- Uppercase hexadecimal digit, as used by Go's URL escaping. -/
def upperHexDigit (n : ℕ) : Char :=
  if n < 10 then Char.ofNat (48 + n) else Char.ofNat (55 + n)

/-- Embedding of net/url QueryEscape: unreserved characters kept, space
becomes a plus, everything else percent-encoded byte by byte. -/
def queryEscape (s : String) : String :=
  ⟨s.data.flatMap (fun c =>
    if c.isAlphanum || c = '-' || c = '_' || c = '.' || c = '~' then [c]
    else if c = ' ' then ['+']
    else (utf8BytesOfCode c.toNat).flatMap
      (fun b => ['%', upperHexDigit (b / 16), upperHexDigit (b % 16)]))⟩

/-- Navigation hit.(map)["_source"].(map)["data"].(map) shared by the sort
comparator and extractLocationData; none models the panic of any failing
step. -/
def hitDataFields (hit : JsonValue) : Option (List (String × JsonValue)) :=
  (hit.asObj.bind (fun hitMap => jsonLookup hitMap "_source")).bind
    (fun src => (src.asObj.bind (fun srcMap => jsonLookup srcMap "data")).bind
      JsonValue.asObj)

/-- Timestamp of a hit: data["timestamp"].(string). -/
def hitTimestampStr (hit : JsonValue) : Option String :=
  (hitDataFields hit).bind (fun d => (jsonLookup d "timestamp").bind JsonValue.asStr)

/-- Latitude of a hit: data["latitude"].(float64). -/
def hitLatitude (hit : JsonValue) : Option ℚ :=
  (hitDataFields hit).bind (fun d => (jsonLookup d "latitude").bind JsonValue.asNum)

/-- Longitude of a hit: data["longitude"].(float64). -/
def hitLongitude (hit : JsonValue) : Option ℚ :=
  (hitDataFields hit).bind (fun d => (jsonLookup d "longitude").bind JsonValue.asNum)

/-- Timestamp key used by the sort comparator (defined once timestamps
are known to be readable). -/
def tsKey (hit : JsonValue) : String :=
  (hitTimestampStr hit).getD ""

/-- The sort.SliceStable comparator: iTimestamp < jTimestamp. -/
def hitLtB (a b : JsonValue) : Bool :=
  charListLt (tsKey a).data (tsKey b).data

/-- Companion non-strict comparison: a may stay before b. -/
def hitLeB (a b : JsonValue) : Bool :=
  !(hitLtB b a)

/-- Stable insertion of a hit before the first element it need not
follow. -/
def insertHit (x : JsonValue) : List JsonValue → List JsonValue
  | [] => [x]
  | y :: ys => if hitLeB x y then x :: y :: ys else y :: insertHit x ys

/-- The stable ascending-by-timestamp order produced by sort.SliceStable
with the strict timestamp comparator, realised as stable insertion
sort (stable sorts of a sequence under one total preorder coincide). -/
def sortHitsByTimestamp : List JsonValue → List JsonValue
  | [] => []
  | x :: xs => insertHit x (sortHitsByTimestamp xs)

/-- The sort step of queryDeviceDataHistory.  With zero or one hit the
comparator never runs; otherwise every hit's timestamp is read by some
comparison, so an unreadable timestamp is a panic (none). -/
def sortHits (hits : List JsonValue) : Option (List JsonValue) :=
  if hits.length ≤ 1 then some hits
  else if hits.all (fun h => (hitTimestampStr h).isSome) then
    some (sortHitsByTimestamp hits)
  else none

/-- Location sample extracted from a telemetry hit. -/
structure LocationData where
  latitude : ℚ
  longitude : ℚ
deriving Repr, DecidableEq

/-- Embedding of extractLocationData: walks the hits in order and reads
latitude and longitude through unchecked type assertions; the first
failing hit panics the whole extraction (none). -/
def extractLocationData : List JsonValue → Option (List LocationData)
  | [] => some []
  | hit :: rest =>
    match hitLatitude hit, hitLongitude hit with
    | some lat, some lon =>
      (extractLocationData rest).map (fun locs => ⟨lat, lon⟩ :: locs)
    | _, _ => none

/-- Outcome of the outbound GET to the telemetry history service:
transport failure, unreadable body, body that json.Unmarshal rejects, or
the decoded JSON value. -/
inductive HistoryUpstream where
  | transportError
  | readError
  | undecodable
  | json (v : JsonValue)
deriving Repr

/-- Result of queryDeviceDataHistory: a returned error, a runtime panic
(failed type assertion while digging into the payload), or the extracted
samples. -/
inductive HistoryResult where
  | err (msg : String)
  | panicked
  | ok (locations : List LocationData)
deriving Repr, DecidableEq

/-- Embedding of queryDeviceDataHistory (get_trips.go).  Returns the
result and the list of outbound requests issued. -/
def queryDeviceDataHistory (cache : Cache) (now : ℕ) (sessionCookie : String)
    (tokenID : ℤ) (startTime endTime : String) (deviceDataAPIBaseURL : String)
    (upstream : HistoryUpstream) : HistoryResult × List OutboundRequest :=
  match cacheGet cache (privilegeTokenKey sessionCookie) now with
  | none => (.err "privilege token not found in cache", [])
  | some tokenVal =>
    match tokenVal.asStr with
    | none => (.panicked, [])
    | some token =>
      let ddUrl := deviceDataAPIBaseURL ++ "/vehicle/" ++ toString tokenID ++
        "/history?startDate=" ++ queryEscape startTime ++ "&endDate=" ++ queryEscape endTime
      let call : OutboundRequest := ⟨ddUrl, token⟩
      match upstream with
      | .transportError => (.err "request failed", [call])
      | .readError => (.err "body read failed", [call])
      | .undecodable => (.err "json unmarshal failed", [call])
      | .json v =>
        match v.asObj with
        | none => (.err "json unmarshal failed", [call])
        | some result =>
          match (jsonLookup result "hits").bind JsonValue.asObj with
          | none => (.panicked, [call])
          | some hitsObj =>
            match (jsonLookup hitsObj "hits").bind JsonValue.asArr with
            | none => (.panicked, [call])
            | some hits =>
              match sortHits hits with
              | none => (.panicked, [call])
              | some sorted =>
                match extractLocationData sorted with
                | none => (.panicked, [call])
                | some locations => (.ok locations, [call])

/-- Property value in the GeoJSON feature properties map. -/
inductive PropValue where
  | str (s : String)
  | num (n : ℤ)
deriving Repr, DecidableEq

/-- GeoJSON LineString feature: geometry coordinates plus properties. -/
structure Feature where
  geometryType : String
  coordinates : List (List ℚ)
  properties : List (String × PropValue)
deriving Repr, DecidableEq

/-- GeoJSON feature collection. -/
structure FeatureCollection where
  features : List Feature
deriving Repr, DecidableEq

/-- Embedding of convertToGeoJSON: each location becomes a
longitude/latitude coordinate pair in order, wrapped into a single
LineString feature with the fixed properties, inside a one-feature
collection. -/
def convertToGeoJSON (locations : List LocationData) (tripID : String)
    (tripStart : String) (tripEnd : String) : FeatureCollection :=
  let coords := locations.map (fun loc => [loc.longitude, loc.latitude])
  let feature : Feature :=
    ⟨"LineString", coords,
     [("type", .str "LineString"),
      ("trip_id", .str tripID),
      ("trip_start", .str tripStart),
      ("trip_end", .str tripEnd),
      ("privacy_zone", .num 1),
      ("color", .str "black"),
      ("point-color", .str "black")]⟩
  ⟨[feature]⟩

/-- Result handleMapDataForTrip sends back: 404 for an unknown trip, 500
when fetching history returns an error, a propagated panic, or the
GeoJSON payload. -/
inductive MapDataResult where
  | notFound
  | internalError (msg : String)
  | panicked
  | ok (fc : FeatureCollection)
deriving Repr, DecidableEq

/-- Embedding of handleMapDataForTrip (the getTripPath request handler):
resolves the vehicle token from the trip index, fetches and converts the
history. -/
def handleMapDataForTrip (index : TripIndex) (cache : Cache) (now : ℕ)
    (sessionCookie : String) (tripID startTime endTime : String)
    (deviceDataAPIBaseURL : String) (upstream : HistoryUpstream) :
    MapDataResult × List OutboundRequest :=
  match tripIndexLookup index tripID with
  | none => (.notFound, [])
  | some tokenID =>
    match queryDeviceDataHistory cache now sessionCookie tokenID startTime endTime
        deviceDataAPIBaseURL upstream with
    | (.err msg, calls) => (.internalError ("Failed to fetch historical data: " ++ msg), calls)
    | (.panicked, calls) => (.panicked, calls)
    | (.ok locations, calls) => (.ok (convertToGeoJSON locations tripID startTime endTime), calls)

/-- Vehicle projection decoded from the identity service response. -/
structure Vehicle where
  id : String
  make : String
  model : String
  year : ℤ
deriving Repr, DecidableEq

/-- Body of the identity service response: json.Decode into
VehicleResponse either rejects it or yields a JSON value to decode. -/
inductive IdentityBody where
  | undecodable
  | json (v : JsonValue)
deriving Repr

/-- Outcome of the outbound POST to the identity GraphQL service. -/
inductive IdentityUpstream where
  | transportError
  | response (status : ℕ) (body : IdentityBody)
deriving Repr

/-- Result of queryIdentityAPIForVehicles. -/
inductive VehiclesResult where
  | err (msg : String)
  | ok (vehicles : List Vehicle)
deriving Repr, DecidableEq

/-- Go json decoding of a string-typed struct field: absent or null gives
the zero value, a string gives the string, any other type is a decode
error. -/
def decodeStringField (fields : List (String × JsonValue)) (k : String) : Option String :=
  match jsonLookup fields k with
  | none => some ""
  | some .null => some ""
  | some (.str s) => some s
  | some _ => none

/-- Go json decoding of an int-typed struct field: absent or null gives
zero, an integral number gives its value, anything else is a decode
error. -/
def decodeIntField (fields : List (String × JsonValue)) (k : String) : Option ℤ :=
  match jsonLookup fields k with
  | none => some 0
  | some .null => some 0
  | some (.num q) => if q.den = 1 then some q.num else none
  | some _ => none

/-- Go json decoding of a Vehicle struct from an array element. -/
def decodeVehicle : JsonValue → Option Vehicle
  | .null => some ⟨"", "", "", 0⟩
  | .obj fields =>
    match decodeStringField fields "id", decodeStringField fields "make",
        decodeStringField fields "model", decodeIntField fields "year" with
    | some i, some mk, some md, some y => some ⟨i, mk, md, y⟩
    | _, _, _, _ => none
  | _ => none

/-- Go json decoding of the nodes array. -/
def decodeNodes : JsonValue → Option (List Vehicle)
  | .null => some []
  | .arr elems => elems.mapM decodeVehicle
  | _ => none

/-- Go json decoding of the vehicles object. -/
def decodeVehiclesObj : JsonValue → Option (List Vehicle)
  | .null => some []
  | .obj fields =>
    match jsonLookup fields "nodes" with
    | none => some []
    | some nv => decodeNodes nv
  | _ => none

/-- Go json decoding of the data object. -/
def decodeDataObj : JsonValue → Option (List Vehicle)
  | .null => some []
  | .obj fields =>
    match jsonLookup fields "vehicles" with
    | none => some []
    | some vv => decodeVehiclesObj vv
  | _ => none

/-- Go json.Decode of the whole body into VehicleResponse, yielding
Data.Vehicles.Nodes. -/
def decodeVehicleResponse : JsonValue → Option (List Vehicle)
  | .null => some []
  | .obj fields =>
    match jsonLookup fields "data" with
    | none => some []
    | some dv => decodeDataObj dv
  | _ => none

/-- Embedding of queryIdentityAPIForVehicles (app-login backend).  The
GraphQL query construction is elided (it does not affect the result); the
response is the parameter upstream.  The HTTP status code of the response
is bound but never examined, exactly as in the source. -/
def queryIdentityAPIForVehicles (ethAddress : String) (identityAPIURL : String)
    (upstream : IdentityUpstream) : VehiclesResult :=
  match upstream with
  | .transportError => .err "request failed"
  | .response _status body =>
    match body with
    | .undecodable => .err "response decode failed"
    | .json v =>
      match decodeVehicleResponse v with
      | none => .err "response decode failed"
      | some vehicles => .ok vehicles

/-! Helper lemmas. -/

/-- Agreement of the executable byte comparison with the lexicographic
order on character lists. -/
theorem charListLt_iff (as bs : List Char) : charListLt as bs = true ↔ as < bs := by
  induction as generalizing bs with
  | nil =>
    cases bs with
    | nil =>
      simp only [charListLt, Bool.false_eq_true, false_iff]
      exact fun h => List.Lex.not_nil_right _ _ h
    | cons b bs =>
      simp only [charListLt, true_iff]
      exact List.nil_lt_cons b bs
  | cons a as ih =>
    cases bs with
    | nil =>
      simp only [charListLt, Bool.false_eq_true, false_iff]
      exact fun h => List.Lex.not_nil_right _ _ h
    | cons b bs =>
      simp only [charListLt]
      by_cases hab : a < b
      · simp only [if_pos hab, true_iff]
        exact List.Lex.rel hab
      · rw [if_neg hab]
        by_cases hba : b < a
        · simp only [if_pos hba, Bool.false_eq_true, false_iff]
          intro hlex
          cases hlex with
          | cons h => exact absurd hba (lt_asymm hba)
          | rel h => exact absurd h hab
        · rw [if_neg hba]
          have heq : a = b := le_antisymm (not_lt.mp hba) (not_lt.mp hab)
          subst heq
          rw [ih bs]
          constructor
          · intro h; exact List.Lex.cons h
          · intro h
            cases h with
            | cons h => exact h
            | rel h => exact absurd rfl (ne_of_lt h)

/-- Order in which a hit may stay before another under the stable sort:
its timestamp key is not greater. -/
def leKey (a b : JsonValue) : Prop :=
  (tsKey a).data ≤ (tsKey b).data

theorem hitLeB_iff (a b : JsonValue) : hitLeB a b = true ↔ leKey a b := by
  unfold hitLeB hitLtB leKey
  constructor
  · intro h
    by_contra hc
    rw [not_le] at hc
    rw [← charListLt_iff] at hc
    rw [hc] at h
    simp at h
  · intro h
    have hn : ¬ (tsKey b).data < (tsKey a).data := not_lt.mpr h
    rw [← charListLt_iff] at hn
    simp only [Bool.not_eq_true] at hn
    rw [hn]
    rfl

theorem hitLeB_false_iff (a b : JsonValue) :
    hitLeB a b = false ↔ (tsKey b).data < (tsKey a).data := by
  rw [← charListLt_iff]
  unfold hitLeB hitLtB
  cases h : charListLt (tsKey b).data (tsKey a).data <;> simp [h]

theorem mem_insertHit (z x : JsonValue) (l : List JsonValue) :
    z ∈ insertHit x l ↔ z = x ∨ z ∈ l := by
  induction l with
  | nil => simp [insertHit]
  | cons y ys ih =>
    unfold insertHit
    by_cases h : hitLeB x y = true
    · simp [h]
    · rw [Bool.not_eq_true] at h
      simp only [h, Bool.false_eq_true, if_false, List.mem_cons, ih]
      tauto

theorem pairwise_insertHit (x : JsonValue) (l : List JsonValue)
    (hl : l.Pairwise leKey) : (insertHit x l).Pairwise leKey := by
  induction l with
  | nil => simp [insertHit, leKey]
  | cons y ys ih =>
    rw [List.pairwise_cons] at hl
    obtain ⟨hy, hys⟩ := hl
    unfold insertHit
    by_cases h : hitLeB x y = true
    · rw [if_pos h]
      have hxy : leKey x y := (hitLeB_iff x y).mp h
      rw [List.pairwise_cons]
      constructor
      · intro z hz
        rcases List.mem_cons.mp hz with hz | hz
        · subst hz; exact hxy
        · exact le_trans hxy (hy z hz)
      · rw [List.pairwise_cons]
        exact ⟨hy, hys⟩
    · rw [Bool.not_eq_true] at h
      rw [h]
      simp only [Bool.false_eq_true, if_false]
      rw [List.pairwise_cons]
      constructor
      · intro z hz
        rcases (mem_insertHit z x ys).mp hz with hz | hz
        · rw [hz]
          exact le_of_lt ((hitLeB_false_iff x y).mp h)
        · exact hy z hz
      · exact ih hys

theorem pairwise_sortHitsByTimestamp (l : List JsonValue) :
    (sortHitsByTimestamp l).Pairwise leKey := by
  induction l with
  | nil => simp [sortHitsByTimestamp]
  | cons x xs ih => exact pairwise_insertHit x _ ih

theorem sortHitsByTimestamp_of_pairwise (l : List JsonValue)
    (hl : l.Pairwise leKey) : sortHitsByTimestamp l = l := by
  induction l with
  | nil => rfl
  | cons x xs ih =>
    rw [List.pairwise_cons] at hl
    obtain ⟨hx, hxs⟩ := hl
    unfold sortHitsByTimestamp
    rw [ih hxs]
    cases xs with
    | nil => rfl
    | cons y ys =>
      have : hitLeB x y = true := (hitLeB_iff x y).mpr (hx y (List.mem_cons_self y ys))
      unfold insertHit
      rw [if_pos this]

theorem mem_sortHitsByTimestamp (z : JsonValue) (l : List JsonValue) :
    z ∈ sortHitsByTimestamp l ↔ z ∈ l := by
  induction l with
  | nil => rfl
  | cons x xs ih =>
    unfold sortHitsByTimestamp
    rw [mem_insertHit, ih, List.mem_cons]

theorem tsKey_ne_of_key_lt {a b : JsonValue}
    (h : (tsKey a).data < (tsKey b).data) : tsKey a ≠ tsKey b := by
  intro hc
  rw [hc] at h
  exact lt_irrefl _ h

theorem filter_insertHit_pos (x : JsonValue) (l : List JsonValue) (t : String)
    (hx : tsKey x = t) :
    (insertHit x l).filter (fun h => tsKey h == t) =
      x :: l.filter (fun h => tsKey h == t) := by
  induction l with
  | nil => simp [insertHit, hx]
  | cons y ys ih =>
    unfold insertHit
    by_cases h : hitLeB x y = true
    · rw [if_pos h]
      rw [List.filter_cons, if_pos (by simp [hx])]
    · rw [Bool.not_eq_true] at h
      rw [h]
      simp only [Bool.false_eq_true, if_false]
      have hlt : (tsKey y).data < (tsKey x).data := (hitLeB_false_iff x y).mp h
      have hne : tsKey y ≠ t := by
        rw [← hx]; exact tsKey_ne_of_key_lt hlt
      rw [List.filter_cons, if_neg (by simp [hne]), List.filter_cons,
        if_neg (by simp [hne]), ih]

theorem filter_insertHit_neg (x : JsonValue) (l : List JsonValue) (t : String)
    (hx : tsKey x ≠ t) :
    (insertHit x l).filter (fun h => tsKey h == t) =
      l.filter (fun h => tsKey h == t) := by
  induction l with
  | nil => simp [insertHit, hx]
  | cons y ys ih =>
    unfold insertHit
    by_cases h : hitLeB x y = true
    · rw [if_pos h]
      rw [List.filter_cons, if_neg (by simp [hx])]
    · rw [Bool.not_eq_true] at h
      rw [h]
      simp only [Bool.false_eq_true, if_false]
      rw [List.filter_cons, List.filter_cons, ih]

theorem filter_sortHitsByTimestamp (l : List JsonValue) (t : String) :
    (sortHitsByTimestamp l).filter (fun h => tsKey h == t) =
      l.filter (fun h => tsKey h == t) := by
  induction l with
  | nil => rfl
  | cons x xs ih =>
    unfold sortHitsByTimestamp
    by_cases hx : tsKey x = t
    · rw [filter_insertHit_pos x _ t hx, ih, List.filter_cons, if_pos (by simp [hx])]
    · rw [filter_insertHit_neg x _ t hx, ih, List.filter_cons, if_neg (by simp [hx])]

theorem mem_of_sortHits {hits sorted : List JsonValue}
    (h : sortHits hits = some sorted) (z : JsonValue) : z ∈ sorted ↔ z ∈ hits := by
  unfold sortHits at h
  by_cases h1 : hits.length ≤ 1
  · rw [if_pos h1] at h
    cases h
    rfl
  · rw [if_neg h1] at h
    by_cases h2 : hits.all (fun h => (hitTimestampStr h).isSome) = true
    · rw [if_pos h2] at h
      cases h
      exact mem_sortHitsByTimestamp z hits
    · rw [Bool.not_eq_true] at h2
      rw [h2] at h
      simp at h

theorem extractLocationData_eq_none {l : List JsonValue}
    (h : ∃ hit ∈ l, hitLatitude hit = none ∨ hitLongitude hit = none) :
    extractLocationData l = none := by
  induction l with
  | nil => simp at h
  | cons hit rest ih =>
    obtain ⟨w, hw, hbad⟩ := h
    rcases List.mem_cons.mp hw with hw | hw
    · subst hw
      unfold extractLocationData
      rcases hbad with hbad | hbad
      · rw [hbad]
      · rw [hbad]
        cases hitLatitude w <;> rfl
    · unfold extractLocationData
      cases hitLatitude hit with
      | none => rfl
      | some lat =>
        cases hitLongitude hit with
        | none => rfl
        | some lon =>
          rw [ih ⟨w, hw, hbad⟩]
          rfl

theorem cacheGet_cons_ne (k' : String) (e : CacheEntry) (c : Cache) (k : String)
    (now : ℕ) (h : k' ≠ k) : cacheGet ((k', e) :: c) k now = cacheGet c k now := by
  rw [cacheGet]
  rw [if_neg (by simp [h])]

theorem privilegeTokenKey_ne (s : String) : privilegeTokenKey s ≠ s := by
  intro h
  have h2 := congrArg String.length h
  have h15 : "privilegeToken_".length = 15 := rfl
  unfold privilegeTokenKey at h2
  rw [String.length_append, h15] at h2
  omega

theorem submit_accepted_shape (cache : Cache) (now : ℕ) (sid : String)
    (status : ℕ) (body : SubmitBody) (h : submitRejected status body = false) :
    ∃ fields token, body = .json (.obj fields) ∧
      jsonLookup fields "access_token" = some token ∧
      HandleSubmitChallenge cache now sid (.response status body) =
        (.success
          [("message", .str "Challenge accepted and session started!"),
           ("access_token", token)]
          ⟨"session_id", sid, now + twoHours, true, "localhost"⟩,
         cacheSet cache sid token twoHours now) := by
  unfold submitRejected at h
  rw [Bool.or_eq_false_iff] at h
  obtain ⟨hstatus, hbody⟩ := h
  rw [decide_eq_false_iff_not, not_le] at hstatus
  cases body with
  | unreadable => simp at hbody
  | undecodable => simp at hbody
  | json v =>
    cases v with
    | obj fields =>
      simp only [Option.isNone_eq_false_iff, Option.isSome_iff_exists] at hbody
      obtain ⟨token, htok⟩ := hbody
      refine ⟨fields, token, rfl, htok, ?_⟩
      have hlt : ¬ 300 ≤ status := by omega
      simp only [HandleSubmitChallenge, htok]
      rw [if_neg hlt]
    | null => simp at hbody
    | bool b => simp at hbody
    | num q => simp at hbody
    | str s => simp at hbody
    | arr elems => simp at hbody

theorem lookup_updateTripIndex_preserve (idx : TripIndex) (trips : List Trip)
    (tok : ℤ) (k : String) (h : tripIndexLookup idx k = some tok) :
    tripIndexLookup (updateTripIndex idx trips tok) k = some tok := by
  induction trips generalizing idx with
  | nil => exact h
  | cons t ts ih =>
    unfold updateTripIndex
    rw [List.foldl_cons]
    apply ih
    unfold tripIndexLookup
    by_cases he : (t.id == k) = true
    · rw [if_pos he]
    · rw [Bool.not_eq_true] at he
      rw [if_neg (by simp [he])]
      exact h

theorem lookup_updateTripIndex_mem (idx : TripIndex) (trips : List Trip)
    (tok : ℤ) (t : Trip) (h : t ∈ trips) :
    tripIndexLookup (updateTripIndex idx trips tok) t.id = some tok := by
  induction trips generalizing idx with
  | nil => simp at h
  | cons t' ts ih =>
    unfold updateTripIndex
    rw [List.foldl_cons]
    rcases List.mem_cons.mp h with h | h
    · subst h
      apply lookup_updateTripIndex_preserve
      unfold tripIndexLookup
      rw [if_pos (by simp)]
    · exact ih _ h

theorem submit_rejected_shape (cache : Cache) (now : ℕ) (sid : String)
    (status : ℕ) (body : SubmitBody) (h : submitRejected status body = true) :
    ∃ m, HandleSubmitChallenge cache now sid (.response status body) =
      (.failure 500 m, cache) := by
  by_cases hs : 300 ≤ status
  · exact ⟨"Received non-success status code: " ++ toString status, by
      simp only [HandleSubmitChallenge]; rw [if_pos hs]⟩
  · cases body with
    | unreadable =>
      exact ⟨"Failed to read response from external service", by
        simp only [HandleSubmitChallenge]; rw [if_neg hs]⟩
    | undecodable =>
      exact ⟨"Error processing response", by
        simp only [HandleSubmitChallenge]; rw [if_neg hs]⟩
    | json v =>
      cases v with
      | obj fields =>
        have hnone : jsonLookup fields "access_token" = none := by
          unfold submitRejected at h
          simp only [Bool.or_eq_true, decide_eq_true_eq] at h
          rcases h with h | h
          · exact absurd h hs
          · exact Option.isNone_iff_eq_none.mp h
        exact ⟨"Token not found in response", by
          simp only [HandleSubmitChallenge, hnone]; rw [if_neg hs]⟩
      | null =>
        exact ⟨"Error processing response", by
          simp only [HandleSubmitChallenge]; rw [if_neg hs]⟩
      | bool b =>
        exact ⟨"Error processing response", by
          simp only [HandleSubmitChallenge]; rw [if_neg hs]⟩
      | num q =>
        exact ⟨"Error processing response", by
          simp only [HandleSubmitChallenge]; rw [if_neg hs]⟩
      | str s =>
        exact ⟨"Error processing response", by
          simp only [HandleSubmitChallenge]; rw [if_neg hs]⟩
      | arr elems =>
        exact ⟨"Error processing response", by
          simp only [HandleSubmitChallenge]; rw [if_neg hs]⟩

theorem lookup_updateTripIndex_none (idx : TripIndex) (trips : List Trip)
    (tok : ℤ) (k : String)
    (h : tripIndexLookup (updateTripIndex idx trips tok) k = none) :
    tripIndexLookup idx k = none := by
  induction trips generalizing idx with
  | nil => exact h
  | cons t ts ih =>
    unfold updateTripIndex at h
    rw [List.foldl_cons] at h
    have h2 := ih _ h
    unfold tripIndexLookup at h2
    by_cases he : (t.id == k) = true
    · rw [if_pos he] at h2
      simp at h2
    · rw [Bool.not_eq_true] at he
      rw [if_neg (by simp [he])] at h2
      exact h2

/-! Claim theorems. -/

/-- C1: HandleSubmitChallenge (the submitSignature step) creates a session
exactly when the upstream provider accepts.  If the provider HTTP status
is >= 300, the body is unreadable, the body is not decodable as a JSON
mapping, or the decoded mapping lacks an access_token field, the handler
reports a failure to the caller (the failure result carries no cookie) and
the cache is unchanged; otherwise it stores the minted session identifier
-> access_token in the cache with the fixed 2-hour TTL (so the token is
retrievable under the session id), and answers with an HTTP-only
session_id cookie expiring 2 hours from now. -/
theorem submitSignature_session_iff_accepted (cache : Cache) (now : ℕ)
    (sid : String) (status : ℕ) (body : SubmitBody) :
    (submitRejected status body = true →
      (HandleSubmitChallenge cache now sid (.response status body)).2 = cache ∧
      ∃ m, (HandleSubmitChallenge cache now sid (.response status body)).1 =
        .failure 500 m) ∧
    (submitRejected status body = false →
      ∃ fields token, body = .json (.obj fields) ∧
        jsonLookup fields "access_token" = some token ∧
        HandleSubmitChallenge cache now sid (.response status body) =
          (.success
            [("message", .str "Challenge accepted and session started!"),
             ("access_token", token)]
            ⟨"session_id", sid, now + twoHours, true, "localhost"⟩,
           cacheSet cache sid token twoHours now) ∧
        cacheGet (cacheSet cache sid token twoHours now) sid now = some token) := by
  constructor
  · intro h
    obtain ⟨m, hm⟩ := submit_rejected_shape cache now sid status body h
    exact ⟨by rw [hm], ⟨m, by rw [hm]⟩⟩
  · intro h
    obtain ⟨fields, token, hb, htok, heq⟩ := submit_accepted_shape cache now sid status body h
    refine ⟨fields, token, hb, htok, heq, ?_⟩
    unfold cacheSet
    rw [cacheGet]
    rw [if_pos (by simp)]
    rw [if_neg (by dsimp only; omega)]

/-- Witness for C1 at concrete inputs: a 500 response is rejected with the
cache unchanged, and a 200 response carrying an access_token mints the
session. -/
theorem submitSignature_session_iff_accepted_witness :
    ((HandleSubmitChallenge [] 0 "sess-a"
        (.response 500 (.json (.obj [("access_token", .str "tok-a")])))).2 = [] ∧
      ∃ m, (HandleSubmitChallenge [] 0 "sess-a"
        (.response 500 (.json (.obj [("access_token", .str "tok-a")])))).1 =
          .failure 500 m) ∧
    (∃ fields token,
      SubmitBody.json (.obj [("access_token", .str "tok-a")]) = .json (.obj fields) ∧
      jsonLookup fields "access_token" = some token ∧
      HandleSubmitChallenge [] 0 "sess-a"
          (.response 200 (.json (.obj [("access_token", .str "tok-a")]))) =
        (.success
          [("message", .str "Challenge accepted and session started!"),
           ("access_token", token)]
          ⟨"session_id", "sess-a", 0 + twoHours, true, "localhost"⟩,
         cacheSet [] "sess-a" token twoHours 0) ∧
      cacheGet (cacheSet [] "sess-a" token twoHours 0) "sess-a" 0 = some token) :=
  ⟨(submitSignature_session_iff_accepted [] 0 "sess-a" 500
      (.json (.obj [("access_token", .str "tok-a")]))).1 rfl,
   (submitSignature_session_iff_accepted [] 0 "sess-a" 200
      (.json (.obj [("access_token", .str "tok-a")]))).2 rfl⟩

/-- C2 counterexample: a successful submitSignature stores the access
token under the bare session id, but queryTripsAPI looks the privilege
token up under the prefixed key privilegeToken_sessionID of the same
cookie, so even against the very cache the handler produced (the most
favourable reading, the processes actually use two separate caches) the
lookup misses and listTrips fails with the very Unauthorized error the
claim rules out. -/
theorem session_maps_to_privilege_token_counterexample :
    (HandleSubmitChallenge [] 0 "sess-1"
        (.response 200 (.json (.obj [("access_token", .str "tok-1")])))).1 =
      .success
        [("message", .str "Challenge accepted and session started!"),
         ("access_token", .str "tok-1")]
        ⟨"session_id", "sess-1", twoHours, true, "localhost"⟩ ∧
    queryTripsAPI
        (HandleSubmitChallenge [] 0 "sess-1"
          (.response 200 (.json (.obj [("access_token", .str "tok-1")])))).2
        0 "sess-1" 7 "https://trips-api" [] (.decoded []) =
      (.err "privilege token not found in cache", [], []) :=
  ⟨rfl, rfl⟩

/-- C2 amended: the trip aggregator looks privilege tokens up under the
key privilegeToken_ ++ cookie, while submitSignature stores the upstream
access_token under the bare session id only; hence for every session
established by a successful submitSignature, unless some other step cached
a token under the prefixed key, listTrips and getTripPath fail with the
privilege-token-not-found Unauthorized error (and issue no outbound
call). -/
theorem session_maps_to_privilege_token_amended (cache : Cache) (now now2 : ℕ)
    (sid : String) (status : ℕ) (body : SubmitBody)
    (h : submitRejected status body = false)
    (hmiss : cacheGet cache (privilegeTokenKey sid) now2 = none)
    (tokenID : ℤ) (base : String) (idx : TripIndex) (up : TripsUpstream)
    (startTime endTime ddBase : String) (up2 : HistoryUpstream) :
    queryTripsAPI (HandleSubmitChallenge cache now sid (.response status body)).2
        now2 sid tokenID base idx up =
      (.err "privilege token not found in cache", idx, []) ∧
    queryDeviceDataHistory (HandleSubmitChallenge cache now sid (.response status body)).2
        now2 sid tokenID startTime endTime ddBase up2 =
      (.err "privilege token not found in cache", []) := by
  obtain ⟨fields, token, hb, htok, heq⟩ := submit_accepted_shape cache now sid status body h
  rw [heq]
  dsimp only
  have hmiss2 : cacheGet (cacheSet cache sid token twoHours now)
      (privilegeTokenKey sid) now2 = none := by
    unfold cacheSet
    rw [cacheGet_cons_ne _ _ _ _ _ (privilegeTokenKey_ne sid).symm]
    exact hmiss
  constructor
  · unfold queryTripsAPI
    rw [hmiss2]
  · unfold queryDeviceDataHistory
    rw [hmiss2]

/-- Witness for the amended C2 at concrete inputs. -/
theorem session_maps_to_privilege_token_amended_witness :
    queryTripsAPI (HandleSubmitChallenge [] 0 "sess-w"
        (.response 200 (.json (.obj [("access_token", .str "tok-w")])))).2
      0 "sess-w" 7 "https://trips-api" [] (.decoded []) =
      (.err "privilege token not found in cache", [], []) ∧
    queryDeviceDataHistory (HandleSubmitChallenge [] 0 "sess-w"
        (.response 200 (.json (.obj [("access_token", .str "tok-w")])))).2
      0 "sess-w" 7 "s" "e" "https://dd-api" .transportError =
      (.err "privilege token not found in cache", []) :=
  session_maps_to_privilege_token_amended [] 0 0 "sess-w" 200
    (.json (.obj [("access_token", .str "tok-w")])) rfl rfl
    7 "https://trips-api" [] (.decoded []) "s" "e" "https://dd-api" .transportError

/-- C3 counterexample: on a successful submitSignature the response body
sent to the browser contains the access token itself, contradicting the
claim that the token never appears in any part of the response. -/
theorem token_never_sent_counterexample :
    (HandleSubmitChallenge [] 0 "sess-2"
        (.response 200 (.json (.obj [("access_token", .str "secret-token")])))).1 =
      .success
        [("message", .str "Challenge accepted and session started!"),
         ("access_token", .str "secret-token")]
        ⟨"session_id", "sess-2", twoHours, true, "localhost"⟩ :=
  rfl

/-- C3 amended: the session cookie value is the opaque minted session
identifier, never the token, but the JSON success body does carry the
upstream access_token alongside the acknowledgment message. -/
theorem token_never_sent_amended (cache : Cache) (now : ℕ) (sid : String)
    (status : ℕ) (body : SubmitBody) (h : submitRejected status body = false) :
    ∃ fields token,
      body = .json (.obj fields) ∧
      jsonLookup fields "access_token" = some token ∧
      (HandleSubmitChallenge cache now sid (.response status body)).1 =
        .success
          [("message", .str "Challenge accepted and session started!"),
           ("access_token", token)]
          ⟨"session_id", sid, now + twoHours, true, "localhost"⟩ ∧
      ("access_token", token) ∈
        [(("message" : String), JsonValue.str "Challenge accepted and session started!"),
         ("access_token", token)] := by
  obtain ⟨fields, token, hb, htok, heq⟩ := submit_accepted_shape cache now sid status body h
  exact ⟨fields, token, hb, htok, by rw [heq], by simp⟩

/-- Witness for the amended C3 at concrete inputs. -/
theorem token_never_sent_amended_witness :
    ∃ fields token,
      SubmitBody.json (.obj [("access_token", .str "tok-3")]) = .json (.obj fields) ∧
      jsonLookup fields "access_token" = some token ∧
      (HandleSubmitChallenge [] 0 "sess-3"
          (.response 200 (.json (.obj [("access_token", .str "tok-3")])))).1 =
        .success
          [("message", .str "Challenge accepted and session started!"),
           ("access_token", token)]
          ⟨"session_id", "sess-3", 0 + twoHours, true, "localhost"⟩ ∧
      ("access_token", token) ∈
        [(("message" : String), JsonValue.str "Challenge accepted and session started!"),
         ("access_token", token)] :=
  token_never_sent_amended [] 0 "sess-3" 200
    (.json (.obj [("access_token", .str "tok-3")])) rfl

/-- Telemetry hit of the shape the history service returns. -/
def sampleHit (lat lon : ℚ) (ts : String) : JsonValue :=
  .obj [("_source", .obj [("data", .obj
    [("latitude", .num lat), ("longitude", .num lon), ("timestamp", .str ts)])])]

/-- C4 counterexample: a single telemetry hit that is missing its nested
data.timestamp (but has latitude and longitude) does NOT fail the request:
the sort never runs its comparator on one element and the extraction never
reads timestamps, so getTripPath succeeds and returns the coordinate. -/
theorem malformed_hit_fails_request_counterexample :
    handleMapDataForTrip [("trip-4", 7)]
        [(privilegeTokenKey "c4", ⟨.str "tok-4", 100⟩)] 0 "c4" "trip-4"
        "s" "e" "https://dd"
        (.json (.obj [("hits", .obj [("hits", .arr
          [.obj [("_source", .obj [("data", .obj
            [("latitude", .num 10), ("longitude", .num 20)])])]])])])) =
      (.ok ⟨[⟨"LineString", [[20, 10]],
        [("type", .str "LineString"), ("trip_id", .str "trip-4"),
         ("trip_start", .str "s"), ("trip_end", .str "e"),
         ("privacy_zone", .num 1), ("color", .str "black"),
         ("point-color", .str "black")]⟩]⟩,
       [⟨"https://dd/vehicle/7/history?startDate=s&endDate=e", "tok-4"⟩]) := by
  decide

/-- C4 amended: a hit whose data.latitude or data.longitude is missing or
not a number makes the whole queryDeviceDataHistory fail - as a runtime
panic from the unchecked type assertion, not as a returned decode error -
and no partial coordinate list is produced; getTripPath propagates the
panic.  (A hit missing only data.timestamp escapes when the sort performs
no comparison, see the counterexample.) -/
theorem malformed_hit_panics (cache : Cache) (now : ℕ) (cookie : String)
    (tokenID : ℤ) (s e base : String) (token : String) (v : JsonValue)
    (result hitsObj : List (String × JsonValue)) (hits : List JsonValue)
    (htok : cacheGet cache (privilegeTokenKey cookie) now = some (.str token))
    (hv : v.asObj = some result)
    (hh : (jsonLookup result "hits").bind JsonValue.asObj = some hitsObj)
    (ha : (jsonLookup hitsObj "hits").bind JsonValue.asArr = some hits)
    (hbad : ∃ hit ∈ hits, hitLatitude hit = none ∨ hitLongitude hit = none) :
    (queryDeviceDataHistory cache now cookie tokenID s e base (.json v)).1 =
      .panicked ∧
    ∀ (idx : TripIndex) (tripID : String),
      tripIndexLookup idx tripID = some tokenID →
      (handleMapDataForTrip idx cache now cookie tripID s e base (.json v)).1 =
        .panicked := by
  have hfst : (queryDeviceDataHistory cache now cookie tokenID s e base (.json v)).1 =
      .panicked := by
    simp only [queryDeviceDataHistory, htok, JsonValue.asStr, hv, hh, ha]
    rcases h2 : sortHits hits with _ | sorted
    · rfl
    · have hext : extractLocationData sorted = none := by
        obtain ⟨w, hw, hb⟩ := hbad
        exact extractLocationData_eq_none ⟨w, (mem_of_sortHits h2 w).mpr hw, hb⟩
      simp only [hext]
  refine ⟨hfst, ?_⟩
  intro idx tripID hidx
  rcases hq : queryDeviceDataHistory cache now cookie tokenID s e base (.json v)
    with ⟨r, calls⟩
  rw [hq] at hfst
  dsimp only at hfst
  subst hfst
  simp only [handleMapDataForTrip, hidx, hq]

/-- Witness for the amended C4 at a concrete hit without latitude. -/
theorem malformed_hit_panics_witness :
    (queryDeviceDataHistory [(privilegeTokenKey "c4w", ⟨.str "tkw", 5⟩)] 0 "c4w"
        3 "s" "e" "https://dd"
        (.json (.obj [("hits", .obj [("hits", .arr
          [.obj [("_source", .obj [("data", .obj
            [("timestamp", .str "t1")])])]])])]))).1 = .panicked ∧
    (handleMapDataForTrip [("trip-4w", 3)]
        [(privilegeTokenKey "c4w", ⟨.str "tkw", 5⟩)] 0 "c4w" "trip-4w"
        "s" "e" "https://dd"
        (.json (.obj [("hits", .obj [("hits", .arr
          [.obj [("_source", .obj [("data", .obj
            [("timestamp", .str "t1")])])]])])]))).1 = .panicked := by
  have h := malformed_hit_panics [(privilegeTokenKey "c4w", ⟨.str "tkw", 5⟩)] 0 "c4w"
    3 "s" "e" "https://dd" "tkw"
    (.obj [("hits", .obj [("hits", .arr
      [.obj [("_source", .obj [("data", .obj [("timestamp", .str "t1")])])]])])])
    [("hits", .obj [("hits", .arr
      [.obj [("_source", .obj [("data", .obj [("timestamp", .str "t1")])])]])])]
    [("hits", .arr [.obj [("_source", .obj [("data", .obj [("timestamp", .str "t1")])])]])]
    [.obj [("_source", .obj [("data", .obj [("timestamp", .str "t1")])])]]
    rfl rfl rfl rfl
    ⟨.obj [("_source", .obj [("data", .obj [("timestamp", .str "t1")])])],
      by simp, Or.inl rfl⟩
  exact ⟨h.1, h.2 [("trip-4w", 3)] "trip-4w" rfl⟩

/-- C5: the telemetry sort orders hits ascending by timestamp string under
lexicographic comparison, returns an already-sorted sequence unchanged
(hence is idempotent), and is stable: for any fixed timestamp the hits
carrying it keep their relative input order (the filtered subsequence is
unchanged by sorting). -/
theorem telemetry_sort_sorted_stable_idempotent (l : List JsonValue) :
    (sortHitsByTimestamp l).Pairwise leKey ∧
    (l.Pairwise leKey → sortHitsByTimestamp l = l) ∧
    sortHitsByTimestamp (sortHitsByTimestamp l) = sortHitsByTimestamp l ∧
    ∀ t, (sortHitsByTimestamp l).filter (fun h => tsKey h == t) =
      l.filter (fun h => tsKey h == t) :=
  ⟨pairwise_sortHitsByTimestamp l,
   sortHitsByTimestamp_of_pairwise l,
   sortHitsByTimestamp_of_pairwise _ (pairwise_sortHitsByTimestamp l),
   filter_sortHitsByTimestamp l⟩

/-- Witness for C5 on a concrete sorted two-hit sequence with equal
timestamps. -/
theorem telemetry_sort_witness :
    sortHitsByTimestamp [sampleHit 1 2 "2024-01-01T00:00:01Z",
      sampleHit 3 4 "2024-01-01T00:00:01Z"] =
      [sampleHit 1 2 "2024-01-01T00:00:01Z", sampleHit 3 4 "2024-01-01T00:00:01Z"] ∧
    (sortHitsByTimestamp [sampleHit 1 2 "2024-01-01T00:00:01Z",
      sampleHit 3 4 "2024-01-01T00:00:01Z"]).filter
        (fun h => tsKey h == "2024-01-01T00:00:01Z") =
      [sampleHit 1 2 "2024-01-01T00:00:01Z", sampleHit 3 4 "2024-01-01T00:00:01Z"].filter
        (fun h => tsKey h == "2024-01-01T00:00:01Z") := by
  have hpair : List.Pairwise leKey [sampleHit 1 2 "2024-01-01T00:00:01Z",
      sampleHit 3 4 "2024-01-01T00:00:01Z"] := by
    refine List.Pairwise.cons ?_ (List.pairwise_singleton _ _)
    intro z hz
    rw [List.mem_singleton.mp hz]
    exact (hitLeB_iff _ _).mp rfl
  have h := telemetry_sort_sorted_stable_idempotent
    [sampleHit 1 2 "2024-01-01T00:00:01Z", sampleHit 3 4 "2024-01-01T00:00:01Z"]
  exact ⟨h.2.1 hpair, h.2.2.2 "2024-01-01T00:00:01Z"⟩

/-- C6: getTripPath converts the time-sorted samples 1:1 into
longitude/latitude pairs in sorted order: for input hits with timestamps
02Z then 01Z and lat/lon (10,20) then (11,21), the returned coordinates
are [[21,11],[20,10]] in exactly that order. -/
theorem tripPath_roundtrip_concrete :
    handleMapDataForTrip [("trip-6", 7)]
        [(privilegeTokenKey "c6", ⟨.str "tok-6", 100⟩)] 0 "c6" "trip-6"
        "2024-01-01T00:00:01Z" "2024-01-01T00:00:02Z" "https://dd"
        (.json (.obj [("hits", .obj [("hits", .arr
          [sampleHit 10 20 "2024-01-01T00:00:02Z",
           sampleHit 11 21 "2024-01-01T00:00:01Z"])])])) =
      (.ok ⟨[⟨"LineString", [[21, 11], [20, 10]],
        [("type", .str "LineString"), ("trip_id", .str "trip-6"),
         ("trip_start", .str "2024-01-01T00:00:01Z"),
         ("trip_end", .str "2024-01-01T00:00:02Z"),
         ("privacy_zone", .num 1), ("color", .str "black"),
         ("point-color", .str "black")]⟩]⟩,
       [⟨"https://dd/vehicle/7/history?startDate=2024-01-01T00%3A00%3A01Z&endDate=2024-01-01T00%3A00%3A02Z",
         "tok-6"⟩]) := by
  decide

/-- C7: getTripPath (handleMapDataForTrip) fails NotFound exactly when the
trip id is absent from the Trip Index; a successful listTrips
(queryTripsAPI) upserts every returned trip id to the queried
vehicleTokenID (the updated index maps each returned id to that token, and
upserting never erases existing ids), and getTripPath for a returned id
then resolves the recorded token instead of failing NotFound. -/
theorem tripIndex_notFound_iff_and_listTrips_records
    (idx : TripIndex) (cache : Cache) (now : ℕ) (cookie : String)
    (tripID s e base : String) (up : HistoryUpstream) :
    ((handleMapDataForTrip idx cache now cookie tripID s e base up).1 = .notFound ↔
      tripIndexLookup idx tripID = none) ∧
    (∀ (tokenID : ℤ) (tbase : String) (tup : TripsUpstream) (trips : List Trip)
        (idx2 : TripIndex) (calls : List OutboundRequest),
      queryTripsAPI cache now cookie tokenID tbase idx tup = (.ok trips, idx2, calls) →
      (∀ t ∈ trips, tripIndexLookup idx2 t.id = some tokenID) ∧
      (∀ k, tripIndexLookup idx2 k = none → tripIndexLookup idx k = none) ∧
      (∀ t ∈ trips, ∀ (up2 : HistoryUpstream),
        (handleMapDataForTrip idx2 cache now cookie t.id s e base up2).1 ≠
          .notFound)) := by
  constructor
  · rcases hl : tripIndexLookup idx tripID with _ | tok
    · simp [handleMapDataForTrip, hl]
    · rcases hq : queryDeviceDataHistory cache now cookie tok s e base up with ⟨r, calls⟩
      simp only [handleMapDataForTrip, hl, hq]
      cases r <;> simp
  · intro tokenID tbase tup trips idx2 calls hq
    have hidx2 : idx2 = updateTripIndex idx trips tokenID := by
      unfold queryTripsAPI at hq
      rcases hget : cacheGet cache (privilegeTokenKey cookie) now with _ | tv
      · rw [hget] at hq
        simp at hq
      · rw [hget] at hq
        cases tv with
        | str tokenStr =>
          simp only [JsonValue.asStr] at hq
          cases tup with
          | transportError => simp at hq
          | decodeError => simp at hq
          | decoded trips2 =>
            simp only [Prod.mk.injEq, TripsResult.ok.injEq] at hq
            obtain ⟨h1, h2, h3⟩ := hq
            rw [← h2, ← h1]
        | null => simp [JsonValue.asStr] at hq
        | bool b => simp [JsonValue.asStr] at hq
        | num q => simp [JsonValue.asStr] at hq
        | arr elems => simp [JsonValue.asStr] at hq
        | obj fields => simp [JsonValue.asStr] at hq
    subst hidx2
    refine ⟨fun t ht => lookup_updateTripIndex_mem idx trips tokenID t ht,
      fun k hk => lookup_updateTripIndex_none idx trips tokenID k hk, ?_⟩
    intro t ht up2
    have hlook := lookup_updateTripIndex_mem idx trips tokenID t ht
    rcases hq2 : queryDeviceDataHistory cache now cookie tokenID s e base up2
      with ⟨r, calls2⟩
    simp only [handleMapDataForTrip, hlook, hq2]
    cases r <;> simp

/-- Witness for C7: a concrete listTrips records trip-7 for vehicle 5,
after which getTripPath for trip-7 does not fail NotFound, while on the
empty index it is NotFound. -/
theorem tripIndex_notFound_iff_and_listTrips_records_witness :
    ((handleMapDataForTrip [] [(privilegeTokenKey "c7", ⟨.str "tok-7", 9⟩)] 0 "c7"
        "trip-7" "s" "e" "https://dd" .transportError).1 = .notFound ↔
      tripIndexLookup [] "trip-7" = none) ∧
    tripIndexLookup [("trip-7", 5)] "trip-7" = some 5 ∧
    (handleMapDataForTrip [("trip-7", 5)]
        [(privilegeTokenKey "c7", ⟨.str "tok-7", 9⟩)] 0 "c7" "trip-7" "s" "e"
        "https://dd" .transportError).1 ≠ .notFound := by
  have h := tripIndex_notFound_iff_and_listTrips_records []
    [(privilegeTokenKey "c7", ⟨.str "tok-7", 9⟩)] 0 "c7" "trip-7" "s" "e"
    "https://dd" .transportError
  have h2 := h.2 5 "https://trips" (.decoded [⟨"trip-7", ⟨"ts"⟩, ⟨"te"⟩⟩])
    [⟨"trip-7", ⟨"ts"⟩, ⟨"te"⟩⟩] [("trip-7", 5)]
    [⟨"https://trips/vehicle/5/trips", "tok-7"⟩] (by decide)
  exact ⟨h.1, h2.1 ⟨"trip-7", ⟨"ts"⟩, ⟨"te"⟩⟩ (by simp),
    h2.2.2 ⟨"trip-7", ⟨"ts"⟩, ⟨"te"⟩⟩ (by simp) .transportError⟩

/-- C8: for every session cookie whose privilege-token key is absent from
the cache, queryTripsAPI (listTrips) and queryDeviceDataHistory
(getTripPath) fail immediately with the token-not-found error and issue
zero outbound HTTP requests: the cache lookup precedes, and on a miss
prevents, the external call. -/
theorem cache_miss_no_outbound (cache : Cache) (now : ℕ) (cookie : String)
    (tokenID : ℤ) (tbase : String) (idx : TripIndex) (tup : TripsUpstream)
    (s e ddBase : String) (hup : HistoryUpstream)
    (hmiss : cacheGet cache (privilegeTokenKey cookie) now = none) :
    queryTripsAPI cache now cookie tokenID tbase idx tup =
      (.err "privilege token not found in cache", idx, []) ∧
    queryDeviceDataHistory cache now cookie tokenID s e ddBase hup =
      (.err "privilege token not found in cache", []) := by
  constructor
  · unfold queryTripsAPI
    rw [hmiss]
  · unfold queryDeviceDataHistory
    rw [hmiss]

/-- Witness for C8: an empty cache (also covering expired, forged or never
issued cookies) yields the error and an empty request list. -/
theorem cache_miss_no_outbound_witness :
    queryTripsAPI [] 0 "c8" 9 "https://trips" [] .transportError =
      (.err "privilege token not found in cache", [], []) ∧
    queryDeviceDataHistory [] 0 "c8" 9 "s" "e" "https://dd" .transportError =
      (.err "privilege token not found in cache", []) :=
  cache_miss_no_outbound [] 0 "c8" 9 "https://trips" [] .transportError
    "s" "e" "https://dd" .transportError rfl

/-- C9 counterexample: a non-2xx identity response whose body still
decodes as JSON is not surfaced as an error; the status code is never
inspected, the empty object decodes to the zero-valued response, and the
caller receives a successful empty vehicle list in place of an error. -/
theorem identity_errors_aggregated_counterexample :
    queryIdentityAPIForVehicles "0xabc" "https://identity-api"
      (.response 500 (.json (.obj []))) = .ok [] :=
  rfl

/-- C9 amended: transport failure and an undecodable body do surface as
single errors with no partial results, but the HTTP status code of the
identity response is never examined: the outcome is identical for any two
status codes, so a non-2xx response with a decodable JSON body yields
whatever vehicles decode (possibly none) with no error. -/
theorem identity_errors_aggregated_amended (ethAddress identityAPIURL : String) :
    queryIdentityAPIForVehicles ethAddress identityAPIURL .transportError =
      .err "request failed" ∧
    (∀ status : ℕ, queryIdentityAPIForVehicles ethAddress identityAPIURL
      (.response status .undecodable) = .err "response decode failed") ∧
    (∀ (status status2 : ℕ) (b : IdentityBody),
      queryIdentityAPIForVehicles ethAddress identityAPIURL (.response status b) =
        queryIdentityAPIForVehicles ethAddress identityAPIURL (.response status2 b)) :=
  ⟨rfl, fun _ => rfl, fun _ _ _ => rfl⟩

/-- C10: convertToGeoJSON is total and yields a collection with exactly
one LineString feature whose coordinates are the [longitude, latitude]
pairs of the samples in input order (hence of the same length as the
input), carrying exactly the fixed property set; the empty sample list
yields one feature with an empty coordinate list. -/
theorem convertToGeoJSON_shape (locations : List LocationData)
    (tripID tripStart tripEnd : String) :
    (convertToGeoJSON locations tripID tripStart tripEnd).features =
      [⟨"LineString", locations.map (fun loc => [loc.longitude, loc.latitude]),
        [("type", .str "LineString"), ("trip_id", .str tripID),
         ("trip_start", .str tripStart), ("trip_end", .str tripEnd),
         ("privacy_zone", .num 1), ("color", .str "black"),
         ("point-color", .str "black")]⟩] ∧
    (locations.map (fun loc => [loc.longitude, loc.latitude])).length =
      locations.length ∧
    (convertToGeoJSON [] tripID tripStart tripEnd).features =
      [⟨"LineString", [],
        [("type", .str "LineString"), ("trip_id", .str tripID),
         ("trip_start", .str tripStart), ("trip_end", .str tripEnd),
         ("privacy_zone", .num 1), ("color", .str "black"),
         ("point-color", .str "black")]⟩] :=
  ⟨rfl, List.length_map locations _, rfl⟩

end TripsWeb
